import Mathlib

/-!
Shallow embedding of `src/ttydump.c`: a live byte-stream monitor for serial
devices.  The embedding models the three per-byte formatters
(`print_byte_raw`, `print_byte_ascii`, `print_byte_midi`), the timestamp
tracker (`print_timestamp` with `timespec_sub`), the device-session
configuration and cleanup control flow (`config_tty` plus `main`'s goto
targets), the default-display-option resolution in `config_opt`, and the
read-loop body of `main` including the tee (binary output file) write.

Formatted output is modelled as a list of abstract output events (`Out`):
one event per `fprintf` the C code performs, in program order.  A call to
`print_timestamp` from a formatter is recorded as the single event
`Out.timestamp`; the tracker's own state transition and rendered items are
modelled separately by `print_timestamp` below (its state never feeds back
into any formatting decision, as is visible in the source).
-/

namespace Ttydump

/-- Command line option flags, mirroring `cmd_options_t` in the source.
Each `opt_*` field is the corresponding `uint8_t` flag (the parser stores
exactly 0 or 1, so they are modelled as `Bool`); `val_w` is the `uint8_t`
column width value.  The string-valued fields (`val_p`, `val_o`) and the
baud value are not needed by the formatting model and are omitted;
`opt_o` records whether the binary output (tee) file option is set (and,
as used in `main`'s loop, that the file was successfully opened). -/
structure CmdOptions where
  opt_x : Bool
  opt_c : Bool
  opt_d : Bool
  opt_z : Bool
  opt_t : Bool
  opt_n : Bool
  opt_s : Bool
  opt_a : Bool
  opt_m : Bool
  opt_o : Bool
  val_w : Nat
deriving Repr, DecidableEq

/-- ANSI escape string for green (`ESC_COLOR_GREEN` in the source). -/
def ESC_COLOR_GREEN : String := "\x1b[32m"

/-- ANSI escape string for the MIDI note-on color (`ESC_COLOR_MIDI_NOTE_ON`, green). -/
def ESC_COLOR_MIDI_NOTE_ON : String := "\x1b[32m"

/-- ANSI escape string for the MIDI note-off color (`ESC_COLOR_MIDI_NOTE_OFF`, magenta). -/
def ESC_COLOR_MIDI_NOTE_OFF : String := "\x1b[35m"

/-- ANSI escape string for the MIDI control-change color (`ESC_COLOR_MIDI_CC`, cyan). -/
def ESC_COLOR_MIDI_CC : String := "\x1b[36m"

/-- ANSI escape string for the MIDI pitch-bend color (`ESC_COLOR_MIDI_PB`, bright yellow). -/
def ESC_COLOR_MIDI_PB : String := "\x1b[93m"

/-- ANSI escape string for the MIDI aftertouch color (`ESC_COLOR_MIDI_AT`, bright blue). -/
def ESC_COLOR_MIDI_AT : String := "\x1b[94m"

/-- ANSI escape string for color reset (`ESC_COLOR_RESET`). -/
def ESC_COLOR_RESET : String := "\x1b[0m"

/-- Abstract rendered-output events, one per `fprintf` of the formatters.
`num dec zero b` is the numeral rendering of byte `b` used by the raw and
MIDI formatters (`%3d `/`%03d `/`%2x `/`%02x `); `ch b` is a literal
character print (`%c`); `esc dec b` is an escaped numeral (`\NNN`/`\xNN`);
`color s` is an ANSI color escape emission; `timestamp` marks a call to
`print_timestamp`. -/
inductive Out where
  | newline : Out
  | clear : Out
  | timestamp : Out
  | color : String → Out
  | num : Bool → Bool → Nat → Out
  | ch : Nat → Out
  | esc : Bool → Nat → Out
deriving Repr, DecidableEq

/-- Event classifier: is this event a line boundary (a `\n` print or a
clear-screen escape print)? -/
def isBoundaryO : Out → Bool
  | .newline => true
  | .clear => true
  | _ => false

/-- Event classifier: is this event a `print_timestamp` invocation? -/
def isTsO : Out → Bool
  | .timestamp => true
  | _ => false

/-- Event classifier: is this event a literal character print (`%c`)? -/
def isLitO : Out → Bool
  | .ch _ => true
  | _ => false

/-- Event classifier: is this event an escaped-numeral print (`\NNN`/`\xNN`)? -/
def isEscO : Out → Bool
  | .esc _ _ => true
  | _ => false

/-- Whether an output-event list contains a line boundary. -/
def hasBoundary (l : List Out) : Bool := l.any isBoundaryO

/-- Whether an output-event list contains a `print_timestamp` invocation. -/
def hasTimestamp (l : List Out) : Bool := l.any isTsO

/-- Number of `print_timestamp` invocations recorded in an output-event list. -/
def countTimestamps (l : List Out) : Nat := l.countP fun o => isTsO o

/-- Whether an output-event list contains a literal character print. -/
def hasLit (l : List Out) : Bool := l.any isLitO

/-- Whether an output-event list contains an escaped-numeral print. -/
def hasEsc (l : List Out) : Bool := l.any isEscO

/-- The color-escape strings emitted in an output-event list, in order. -/
def colorEvents (l : List Out) : List String :=
  l.filterMap fun o => match o with
    | .color s => some s
    | _ => none

/-- C-locale `isprint` on an `unsigned char` value (0..255): true exactly
for the graphic characters and space, 0x20..0x7E.  The source calls
`isprint(*p)` with `*p : uint8_t` and never changes locale. -/
def isprint (b : Nat) : Bool := decide (32 ≤ b ∧ b ≤ 126)

/-- C-locale `iscntrl` on an `unsigned char` value (0..255): true exactly
for 0x00..0x1F and 0x7F. -/
def iscntrl (b : Nat) : Bool := decide (b ≤ 31 ∨ b = 127)

/-- The tail of every line-boundary emission in the formatters: a clear
(`ESC_CLEAR_OUTPUT`) in single-line mode (`-x`) or a newline otherwise,
followed by a `print_timestamp` call when any of `-t`, `-n`, `-s` is set.
This exact code shape appears in `print_byte_raw`, `print_byte_midi`, and
twice in `print_byte_ascii`. -/
def boundaryOuts (opt : CmdOptions) : List Out :=
  (if opt.opt_x then [Out.clear] else [Out.newline]) ++
  (if opt.opt_t || opt.opt_n || opt.opt_s then [Out.timestamp] else [])

/-- One step of `print_byte_raw` (src/ttydump.c:352-395).  The static
`byte_count` is passed and returned explicitly; it is a `uint8_t`, so the
increment wraps modulo 256 before the `>= val_w` reset test.  Returns the
new counter and the emitted output events. -/
def print_byte_raw (b : Nat) (opt : CmdOptions) (byte_count : Nat) : Nat × List Out :=
  let outs := (if byte_count == 0 then boundaryOuts opt else []) ++
    [Out.num opt.opt_d opt.opt_z b]
  let bc := (byte_count + 1) % 256
  (if opt.val_w ≤ bc then 0 else bc, outs)

/-- The per-mode static state of `print_byte_ascii` (src/ttydump.c:276-277):
`last_char` and `byte_count`, both `uint8_t` initialized to 0. -/
structure AsciiState where
  last_char : Nat
  byte_count : Nat
deriving Repr, DecidableEq

/-- One step of `print_byte_ascii` (src/ttydump.c:275-350).  Mirrors the
source line by line: the single-line-mode re-clear after a rendered `\n`
(line 280), the top-of-call timestamp gated on `last_char` being `'\n'` or
0 (line 285), the literal path for bytes that are `isprint` or `iscntrl`
and not backslash (with its category-switch boundary and `byte_count`
reset), and the escaped path (with its `byte_count == 0` boundary,
optional green color wrapping, and width-wrapped `uint8_t` counter). -/
def print_byte_ascii (b : Nat) (opt : CmdOptions) (st : AsciiState) :
    AsciiState × List Out :=
  let out0 := if opt.opt_x && (st.last_char == 10) then [Out.clear] else []
  let out1 := if (opt.opt_t || opt.opt_n || opt.opt_s) &&
      (st.last_char == 10 || st.last_char == 0) then [Out.timestamp] else []
  if (isprint b || iscntrl b) && !(b == 92) then
    let boundary :=
      if (!isprint st.last_char && !iscntrl st.last_char) || st.last_char == 92 then
        boundaryOuts opt
      else []
    (⟨b, 0⟩, out0 ++ out1 ++ boundary ++ [Out.ch b])
  else
    let boundary := if st.byte_count == 0 then boundaryOuts opt else []
    let rendered :=
      if opt.opt_c then
        [Out.color ESC_COLOR_GREEN, Out.esc opt.opt_d b, Out.color ESC_COLOR_RESET]
      else [Out.esc opt.opt_d b]
    let bc := (st.byte_count + 1) % 256
    (⟨b, if opt.val_w ≤ bc then 0 else bc⟩, out0 ++ out1 ++ boundary ++ rendered)

/-- One step of `print_byte_midi` (src/ttydump.c:208-273).  No persistent
state: a byte with the high bit set (`*p & 0x80`) triggers a line boundary
(plus timestamp when any timestamp flag is set); when color is enabled the
upper nibble (`*p & 0xF0`) selects the color escape (the C `switch`); then
the numeral is printed with the same format options as the raw formatter. -/
def print_byte_midi (b : Nat) (opt : CmdOptions) : List Out :=
  (if (b &&& 128) == 0 then [] else boundaryOuts opt) ++
  (if opt.opt_c then
    [Out.color (
      if (b &&& 240) == 144 then ESC_COLOR_MIDI_NOTE_ON
      else if (b &&& 240) == 128 then ESC_COLOR_MIDI_NOTE_OFF
      else if (b &&& 240) == 176 then ESC_COLOR_MIDI_CC
      else if (b &&& 240) == 208 then ESC_COLOR_MIDI_AT
      else if (b &&& 240) == 224 then ESC_COLOR_MIDI_PB
      else ESC_COLOR_RESET)]
  else []) ++
  [Out.num opt.opt_d opt.opt_z b]

/-- Fold of `print_byte_raw` over a byte sequence from a given counter:
returns the per-byte output-event lists (in order) and the final counter. -/
def rawRun (opt : CmdOptions) : List Nat → Nat → List (List Out) × Nat
  | [], s => ([], s)
  | b :: bs, s =>
    let r := print_byte_raw b opt s
    let rest := rawRun opt bs r.1
    (r.2 :: rest.1, rest.2)

/-- Fold of `print_byte_ascii` over a byte sequence from a given state:
returns the per-byte output-event lists (in order) and the final state. -/
def asciiRun (opt : CmdOptions) : List Nat → AsciiState → List (List Out) × AsciiState
  | [], st => ([], st)
  | b :: bs, st =>
    let r := print_byte_ascii b opt st
    let rest := asciiRun opt bs r.1
    (r.2 :: rest.1, rest.2)

/-- The `struct timespec` values manipulated by the timestamp tracker;
`sec` and `nsec` are C `long`s, modelled as `Int`. -/
structure Timespec where
  sec : Int
  nsec : Int
deriving Repr, DecidableEq

/-- Direct translation of `timespec_sub` (src/ttydump.c:42-54): subtract
`start` from `e`, borrowing one second when the end nanosecond component is
smaller than the start one. -/
def timespec_sub (start e : Timespec) : Timespec :=
  if start.nsec < e.nsec then ⟨e.sec - start.sec, e.nsec - start.nsec⟩
  else if e.nsec < start.nsec then
    ⟨e.sec - start.sec - 1, 1000000000 - (start.nsec - e.nsec)⟩
  else ⟨e.sec - start.sec, 0⟩

/-- Rendered items of `print_timestamp`: the absolute epoch-nanosecond
value (`%ld: `), the delta in nanoseconds (`+%012ld: `), and the delta as
a seconds value (`%.6f: `, carried here as the exact `timespec` delta the
format converts). -/
inductive TsOut where
  | abs : Int → TsOut
  | deltaNs : Int → TsOut
  | deltaSec : Timespec → TsOut
deriving Repr, DecidableEq

/-- One call of `print_timestamp` (src/ttydump.c:181-206).  `now` is the
value `clock_gettime` delivers during this call; `appTs` is the prior mark
`app->ts` (zero-initialized by `config_opt`'s `memset`, so the sentinel
"no prior mark" is `sec = 0 ∧ nsec = 0`).  When a delta flag is set and no
prior mark exists, the mark is first seeded to `now`; the delta is then
computed with `timespec_sub`.  Returns the new stored mark (always `now`)
and the rendered items in order. -/
def print_timestamp (now : Timespec) (opt : CmdOptions) (appTs : Timespec) :
    Timespec × List TsOut :=
  let out1 := if opt.opt_t then [TsOut.abs (now.sec * 1000000000 + now.nsec)] else []
  let out2 :=
    if opt.opt_n || opt.opt_s then
      let prior := if appTs.sec = 0 ∧ appTs.nsec = 0 then now else appTs
      let td := timespec_sub prior now
      (if opt.opt_n then [TsOut.deltaNs (td.sec * 1000000000 + td.nsec)] else []) ++
      (if opt.opt_s then [TsOut.deltaSec td] else [])
    else []
  (now, out1 ++ out2)

/-- Outcomes of the OS calls `config_tty` performs, treated as the external
environment: whether `open` returns a valid descriptor, whether the
non-blocking exclusive `flock` succeeds, and whether `tcgetattr` /
`tcsetattr` return 0. -/
structure TtyEnv where
  open_ok : Bool
  flock_ok : Bool
  tcgetattr_ok : Bool
  tcsetattr_ok : Bool
deriving Repr, DecidableEq

/-- Return value of `config_tty`: 0 (ok), `EXIT_UNLOCKED` (1), or
`EXIT_LOCKED` (2). -/
inductive ConfigResult where
  | ok : ConfigResult
  | exit_unlocked : ConfigResult
  | exit_locked : ConfigResult
deriving Repr, DecidableEq

/-- Result of running `config_tty`: its return code together with whether
`tcsetattr` was invoked (the only call that mutates device attributes). -/
structure ConfigOutcome where
  result : ConfigResult
  tcsetattr_called : Bool
deriving Repr, DecidableEq

/-- Control flow of `config_tty` (src/ttydump.c:575-632): `open` failure
and `flock` failure return `EXIT_UNLOCKED` before any attribute call;
`tcgetattr` failure returns `EXIT_LOCKED` before `tcsetattr`; `tcsetattr`
failure returns `EXIT_LOCKED` after attempting the attribute write. -/
def config_tty (env : TtyEnv) : ConfigOutcome :=
  if !env.open_ok then ⟨.exit_unlocked, false⟩
  else if !env.flock_ok then ⟨.exit_unlocked, false⟩
  else if !env.tcgetattr_ok then ⟨.exit_locked, false⟩
  else if !env.tcsetattr_ok then ⟨.exit_locked, true⟩
  else ⟨.ok, true⟩

/-- Cleanup steps `main` performs on its exit labels. -/
inductive CleanupAction where
  | unlock : CleanupAction
  | closeHandle : CleanupAction
deriving Repr, DecidableEq

/-- Cleanup path `main` (src/ttydump.c:669-731) takes for a `config_tty`
return code: `EXIT_UNLOCKED` jumps to `exit_unlocked` (close only); any
other nonzero code jumps to `exit_locked` (`flock(LOCK_UN)` then falls
through to the close); 0 proceeds to the read loop. -/
def main_cleanup_for : ConfigResult → List CleanupAction
  | .ok => []
  | .exit_unlocked => [.closeHandle]
  | .exit_locked => [.unlock, .closeHandle]

/-- The formatter statics live for the whole process; one record holds the
raw formatter's counter and the ASCII formatter's state (only one of the
two is ever consulted, selected by the mode flags). -/
structure FmtState where
  raw_byte_count : Nat
  ascii : AsciiState
deriving Repr, DecidableEq

/-- The formatter dispatch in `main`'s read loop (src/ttydump.c:687-690):
MIDI if `-m`, else ASCII if `-a`, else raw. -/
def loop_dispatch (opt : CmdOptions) (b : Nat) (st : FmtState) : FmtState × List Out :=
  if opt.opt_m then (st, print_byte_midi b opt)
  else if opt.opt_a then
    let r := print_byte_ascii b opt st.ascii
    ({ st with ascii := r.1 }, r.2)
  else
    let r := print_byte_raw b opt st.raw_byte_count
    ({ st with raw_byte_count := r.1 }, r.2)

/-- The per-chunk inner loop of `main` (src/ttydump.c:680-704): each byte
read is dispatched to the active formatter, then — when the output-file
option is set — written unmodified to the tee file (`fwrite` of exactly
that one byte).  Returns the final formatter state, the concatenated
formatter output events, and the bytes written to the tee file, in order. -/
def process_chunk (opt : CmdOptions) : List Nat → FmtState → FmtState × List Out × List Nat
  | [], st => (st, [], [])
  | b :: bs, st =>
    let fd := loop_dispatch opt b st
    let tee := if opt.opt_o then [b] else []
    let rest := process_chunk opt bs fd.1
    (rest.1, fd.2 ++ rest.2.1, tee ++ rest.2.2)

/-- The condition of the default-display-option check in `config_opt`
(src/ttydump.c:531-532), exactly as the C operator precedence parses it:
`opt_x | opt_c | opt_d | opt_z | opt_t | opt_n | opt_s | opt_a | (opt_m == 0)`
— `==` binds tighter than `|`, so the last disjunct is the comparison
`opt_m == 0`, not a comparison of the whole chain with 0.  The flags hold
0 or 1, so bitwise `|` coincides with boolean or. -/
def default_display_condition (opt : CmdOptions) : Bool :=
  opt.opt_x || opt.opt_c || opt.opt_d || opt.opt_z || opt.opt_t ||
  opt.opt_n || opt.opt_s || opt.opt_a || (opt.opt_m == false)

/-- Effect of the default-display-option block in `config_opt`
(src/ttydump.c:531-534): when `default_display_condition` holds, the color
flag is set. -/
def config_opt_default_color (opt : CmdOptions) : CmdOptions :=
  if default_display_condition opt then { opt with opt_c := true } else opt

/-- Raw-mode options with column width 4 (field order: x, c, d, z, t, n, s,
a, m, o, w). -/
def cfgRaw4 : CmdOptions := ⟨false, false, false, false, false, false, false, false, false, false, 4⟩

/-- Raw-mode options with the binary-output-file (tee) option set. -/
def cfgTee : CmdOptions := ⟨false, false, false, false, false, false, false, false, false, true, 8⟩

/-- MIDI-mode options with color enabled. -/
def cfgMidiColor : CmdOptions := ⟨false, true, false, false, false, false, false, false, true, false, 0⟩

/-- ASCII-mode options with the default column width 8 and no other flags. -/
def cfgAscii8 : CmdOptions := ⟨false, false, false, false, false, false, false, true, false, false, 8⟩

/-- ASCII-mode options with column width 3 and no other flags. -/
def cfgAscii3 : CmdOptions := ⟨false, false, false, false, false, false, false, true, false, false, 3⟩

/-- ASCII-mode options with the absolute-timestamp flag set. -/
def cfgAsciiTs : CmdOptions := ⟨false, false, false, false, true, false, false, true, false, false, 8⟩

/-- Options with all three timestamp flags set. -/
def cfgAllTs : CmdOptions := ⟨false, false, false, false, true, true, true, false, false, false, 8⟩

/-- Options with only the decimal-output display flag set. -/
def cfgDecOnly : CmdOptions := ⟨false, false, true, false, false, false, false, false, false, false, 8⟩

theorem hasBoundary_append (l₁ l₂ : List Out) :
    hasBoundary (l₁ ++ l₂) = (hasBoundary l₁ || hasBoundary l₂) :=
  List.any_append

theorem hasTimestamp_append (l₁ l₂ : List Out) :
    hasTimestamp (l₁ ++ l₂) = (hasTimestamp l₁ || hasTimestamp l₂) :=
  List.any_append

theorem hasLit_append (l₁ l₂ : List Out) :
    hasLit (l₁ ++ l₂) = (hasLit l₁ || hasLit l₂) :=
  List.any_append

theorem hasEsc_append (l₁ l₂ : List Out) :
    hasEsc (l₁ ++ l₂) = (hasEsc l₁ || hasEsc l₂) :=
  List.any_append

theorem colorEvents_append (l₁ l₂ : List Out) :
    colorEvents (l₁ ++ l₂) = colorEvents l₁ ++ colorEvents l₂ :=
  List.filterMap_append _ _ _

theorem countTimestamps_append (l₁ l₂ : List Out) :
    countTimestamps (l₁ ++ l₂) = countTimestamps l₁ + countTimestamps l₂ :=
  List.countP_append _ _ _

theorem hasBoundary_boundaryOuts (opt : CmdOptions) :
    hasBoundary (boundaryOuts opt) = true := by
  obtain ⟨x, c, d, z, t, n, s, a, m, o, w⟩ := opt
  cases x <;> cases t <;> cases n <;> cases s <;> rfl

theorem hasTimestamp_boundaryOuts (opt : CmdOptions) :
    hasTimestamp (boundaryOuts opt) = (opt.opt_t || opt.opt_n || opt.opt_s) := by
  obtain ⟨x, c, d, z, t, n, s, a, m, o, w⟩ := opt
  cases x <;> cases t <;> cases n <;> cases s <;> rfl

theorem countTimestamps_boundaryOuts (opt : CmdOptions) :
    countTimestamps (boundaryOuts opt) =
      (if opt.opt_t || opt.opt_n || opt.opt_s then 1 else 0) := by
  obtain ⟨x, c, d, z, t, n, s, a, m, o, w⟩ := opt
  cases x <;> cases t <;> cases n <;> cases s <;> rfl

theorem hasLit_boundaryOuts (opt : CmdOptions) :
    hasLit (boundaryOuts opt) = false := by
  obtain ⟨x, c, d, z, t, n, s, a, m, o, w⟩ := opt
  cases x <;> cases t <;> cases n <;> cases s <;> rfl

theorem hasEsc_boundaryOuts (opt : CmdOptions) :
    hasEsc (boundaryOuts opt) = false := by
  obtain ⟨x, c, d, z, t, n, s, a, m, o, w⟩ := opt
  cases x <;> cases t <;> cases n <;> cases s <;> rfl

theorem colorEvents_boundaryOuts (opt : CmdOptions) :
    colorEvents (boundaryOuts opt) = [] := by
  obtain ⟨x, c, d, z, t, n, s, a, m, o, w⟩ := opt
  cases x <;> cases t <;> cases n <;> cases s <;> rfl

theorem print_byte_raw_hasBoundary (b : Nat) (opt : CmdOptions) (s : Nat) :
    hasBoundary (print_byte_raw b opt s).2 = (s == 0) := by
  by_cases hs : s = 0
  · have h : (s == 0) = true := by simp [hs]
    simp only [print_byte_raw, h, if_true, hasBoundary_append,
      hasBoundary_boundaryOuts, Bool.true_or]
  · have h : (s == 0) = false := by simp [hs]
    simp only [print_byte_raw, h, if_false, List.nil_append]
    rfl

theorem print_byte_raw_state (b : Nat) (opt : CmdOptions) (k : Nat)
    (hw1 : 1 ≤ opt.val_w) (hw2 : opt.val_w ≤ 128) :
    (print_byte_raw b opt (k % opt.val_w)).1 = (k + 1) % opt.val_w := by
  have hlt : k % opt.val_w < opt.val_w := Nat.mod_lt _ (by omega)
  have h256 : (k % opt.val_w + 1) % 256 = k % opt.val_w + 1 :=
    Nat.mod_eq_of_lt (by omega)
  unfold print_byte_raw
  simp only [h256]
  by_cases hc : opt.val_w ≤ k % opt.val_w + 1
  · have heq : k % opt.val_w + 1 = opt.val_w := by omega
    rw [if_pos hc, ← Nat.mod_add_mod, heq, Nat.mod_self]
  · have hlt2 : k % opt.val_w + 1 < opt.val_w := by omega
    rw [if_neg hc, ← Nat.mod_add_mod, Nat.mod_eq_of_lt hlt2]

theorem rawRun_spec (opt : CmdOptions) (hw1 : 1 ≤ opt.val_w)
    (hw2 : opt.val_w ≤ 128) :
    ∀ (bytes : List Nat) (j : Nat),
      (rawRun opt bytes (j % opt.val_w)).1.map hasBoundary
          = (List.range bytes.length).map (fun i => decide ((j + i) % opt.val_w = 0))
        ∧ (rawRun opt bytes (j % opt.val_w)).2 = (j + bytes.length) % opt.val_w := by
  intro bytes
  induction bytes with
  | nil => intro j; simp [rawRun]
  | cons b bs ih =>
    intro j
    have hstate := print_byte_raw_state b opt j hw1 hw2
    have hbd := print_byte_raw_hasBoundary b opt (j % opt.val_w)
    have ihj := ih (j + 1)
    have hhead : ((j % opt.val_w : Nat) == 0) = decide (j % opt.val_w = 0) := by
      by_cases h : j % opt.val_w = 0 <;> simp [h]
    constructor
    · show hasBoundary (print_byte_raw b opt (j % opt.val_w)).2 ::
          (rawRun opt bs (print_byte_raw b opt (j % opt.val_w)).1).1.map hasBoundary = _
      rw [hstate, hbd, hhead, List.length_cons, List.range_succ_eq_map,
        List.map_cons, List.map_map, ihj.1]
      refine congrArg₂ _ (by simp) (List.map_congr_left fun i _ => ?_)
      simp only [Function.comp_apply]
      rw [show j + 1 + i = j + (i + 1) from by omega]
    · show (rawRun opt bs (print_byte_raw b opt (j % opt.val_w)).1).2 = _
      rw [hstate, ihj.2, List.length_cons,
        show j + 1 + bs.length = j + (bs.length + 1) from by omega]

/-- C2: in the raw formatter, for every configured width `w` in 1..=128 and
every input byte sequence, a line boundary (newline, or clear-screen in
single-line mode) is emitted exactly before bytes whose index is a multiple
of `w` (in particular before byte 0), and the internal column counter
(`byte_count`) stays below `w` after every prefix of the input. -/
theorem raw_formatter_boundary_law (opt : CmdOptions) (bytes : List Nat)
    (hw1 : 1 ≤ opt.val_w) (hw2 : opt.val_w ≤ 128) :
    (rawRun opt bytes 0).1.map hasBoundary
        = (List.range bytes.length).map (fun i => decide (i % opt.val_w = 0))
      ∧ ∀ k : Nat, (rawRun opt (bytes.take k) 0).2 < opt.val_w := by
  constructor
  · have h := (rawRun_spec opt hw1 hw2 bytes 0).1
    simpa using h
  · intro k
    have h := (rawRun_spec opt hw1 hw2 (bytes.take k) 0).2
    simp only [Nat.zero_mod, Nat.zero_add] at h
    rw [h]
    exact Nat.mod_lt _ (by omega)

/-- C2 witness: width 4 on the byte sequence `[0x00, 0x01, 0x02, 0x03, 0x04]`
yields a boundary exactly before bytes 0 and 4, and the counter stays below
the width. -/
theorem raw_formatter_boundary_law_witness :
    (rawRun cfgRaw4 [0, 1, 2, 3, 4] 0).1.map hasBoundary
        = [true, false, false, false, true]
      ∧ (rawRun cfgRaw4 ([0, 1, 2, 3, 4].take 3) 0).2 < cfgRaw4.val_w := by
  have h := raw_formatter_boundary_law cfgRaw4 [0, 1, 2, 3, 4] (by decide) (by decide)
  exact ⟨by rw [h.1]; decide, h.2 3⟩

/-- C1: every byte read from the device is appended, unmodified and in
arrival order, to the tee (binary output) file whenever the output-file
option is set, whatever the active formatter mode and formatter state. -/
theorem tee_passthrough (opt : CmdOptions) (bytes : List Nat) (st : FmtState)
    (ho : opt.opt_o = true) :
    (process_chunk opt bytes st).2.2 = bytes := by
  induction bytes generalizing st with
  | nil => rfl
  | cons b bs ih => simp [process_chunk, ho, ih]

/-- C1 witness: with the tee option set, processing the chunk
`[10, 200, 3]` writes exactly `[10, 200, 3]` to the tee file. -/
theorem tee_passthrough_witness :
    (process_chunk cfgTee [10, 200, 3] ⟨0, ⟨0, 0⟩⟩).2.2 = [10, 200, 3] :=
  tee_passthrough cfgTee [10, 200, 3] ⟨0, ⟨0, 0⟩⟩ rfl

set_option maxRecDepth 4096 in
theorem land_128_eq : ∀ b, b < 256 → ((b &&& 128) == 0) = decide (b < 128) := by
  decide

set_option maxRecDepth 4096 in
theorem land_240_144 : ∀ b, b < 256 →
    ((b &&& 240) == 144) = decide (144 ≤ b ∧ b ≤ 159) := by
  decide

set_option maxRecDepth 4096 in
theorem land_240_128 : ∀ b, b < 256 →
    ((b &&& 240) == 128) = decide (128 ≤ b ∧ b ≤ 143) := by
  decide

set_option maxRecDepth 4096 in
theorem land_240_176 : ∀ b, b < 256 →
    ((b &&& 240) == 176) = decide (176 ≤ b ∧ b ≤ 191) := by
  decide

set_option maxRecDepth 4096 in
theorem land_240_208 : ∀ b, b < 256 →
    ((b &&& 240) == 208) = decide (208 ≤ b ∧ b ≤ 223) := by
  decide

set_option maxRecDepth 4096 in
theorem land_240_224 : ∀ b, b < 256 →
    ((b &&& 240) == 224) = decide (224 ≤ b ∧ b ≤ 239) := by
  decide

/-- C3: in the MIDI formatter, a line boundary (newline, or clear-screen in
single-line mode) is emitted if and only if the byte's high bit is set, a
timestamp emission follows if and only if additionally some timestamp flag
is set, and — when color is enabled — exactly one color escape is emitted,
selected by the byte's upper nibble (0x9_ note-on, 0x8_ note-off, 0xB_
control change, 0xD_ aftertouch, 0xE_ pitch bend, everything else —
including every data byte — color reset), immediately preceding the
rendered numeral. -/
theorem midi_formatter_law (opt : CmdOptions) (b : Nat) (hb : b < 256) :
    hasBoundary (print_byte_midi b opt) = decide (128 ≤ b)
      ∧ hasTimestamp (print_byte_midi b opt)
          = (decide (128 ≤ b) && (opt.opt_t || opt.opt_n || opt.opt_s))
      ∧ colorEvents (print_byte_midi b opt) =
          (if opt.opt_c then
            [if 144 ≤ b ∧ b ≤ 159 then ESC_COLOR_MIDI_NOTE_ON
             else if 128 ≤ b ∧ b ≤ 143 then ESC_COLOR_MIDI_NOTE_OFF
             else if 176 ≤ b ∧ b ≤ 191 then ESC_COLOR_MIDI_CC
             else if 208 ≤ b ∧ b ≤ 223 then ESC_COLOR_MIDI_AT
             else if 224 ≤ b ∧ b ≤ 239 then ESC_COLOR_MIDI_PB
             else ESC_COLOR_RESET]
          else [])
      ∧ (opt.opt_c = true → ∃ c : String,
          colorEvents (print_byte_midi b opt) = [c]
            ∧ List.IsSuffix [Out.color c, Out.num opt.opt_d opt.opt_z b]
                (print_byte_midi b opt)) := by
  simp only [print_byte_midi, land_128_eq b hb, land_240_144 b hb,
    land_240_128 b hb, land_240_176 b hb, land_240_208 b hb, land_240_224 b hb,
    decide_eq_true_eq]
  refine ⟨?_, ?_, ?_, ?_⟩
  · simp only [hasBoundary_append]
    by_cases h8 : b < 128
    · rw [if_pos h8, decide_eq_false (by omega)]
      cases hc : opt.opt_c <;> rfl
    · rw [if_neg h8, decide_eq_true (by omega : 128 ≤ b),
        hasBoundary_boundaryOuts]
      rfl
  · simp only [hasTimestamp_append]
    by_cases h8 : b < 128
    · rw [if_pos h8, decide_eq_false (by omega)]
      cases hc : opt.opt_c <;> rfl
    · rw [if_neg h8, decide_eq_true (by omega : 128 ≤ b),
        hasTimestamp_boundaryOuts]
      cases hc : opt.opt_c <;>
        cases ht : (opt.opt_t || opt.opt_n || opt.opt_s) <;> rfl
  · simp only [colorEvents_append]
    by_cases h8 : b < 128 <;>
      [rw [if_pos h8]; rw [if_neg h8, colorEvents_boundaryOuts]] <;>
      cases hc : opt.opt_c <;>
      simp [colorEvents]
  · intro hc
    rw [if_pos hc]
    refine ⟨if 144 ≤ b ∧ b ≤ 159 then ESC_COLOR_MIDI_NOTE_ON
      else if 128 ≤ b ∧ b ≤ 143 then ESC_COLOR_MIDI_NOTE_OFF
      else if 176 ≤ b ∧ b ≤ 191 then ESC_COLOR_MIDI_CC
      else if 208 ≤ b ∧ b ≤ 223 then ESC_COLOR_MIDI_AT
      else if 224 ≤ b ∧ b ≤ 239 then ESC_COLOR_MIDI_PB
      else ESC_COLOR_RESET, ?_, ?_⟩
    · simp only [colorEvents_append]
      by_cases h8 : b < 128 <;>
        [rw [if_pos h8]; rw [if_neg h8, colorEvents_boundaryOuts]] <;>
        simp [colorEvents]
    · refine ⟨if b < 128 then [] else boundaryOuts opt, ?_⟩
      by_cases h8 : b < 128 <;> simp [h8]

/-- C3 witness: with color enabled, byte 0x90 starts a line and is colored
note-on; byte 0x3C starts no line and is colored reset. -/
theorem midi_formatter_law_witness :
    hasBoundary (print_byte_midi 144 cfgMidiColor) = true
      ∧ colorEvents (print_byte_midi 144 cfgMidiColor) = [ESC_COLOR_MIDI_NOTE_ON]
      ∧ hasBoundary (print_byte_midi 60 cfgMidiColor) = false
      ∧ colorEvents (print_byte_midi 60 cfgMidiColor) = [ESC_COLOR_RESET] := by
  have h1 := midi_formatter_law cfgMidiColor 144 (by decide)
  have h2 := midi_formatter_law cfgMidiColor 60 (by decide)
  refine ⟨?_, ?_, ?_, ?_⟩
  · rw [h1.1]; decide
  · rw [h1.2.2.1]; decide
  · rw [h2.1]; decide
  · rw [h2.2.2.1]; decide

theorem countTimestamps_nil : countTimestamps [] = 0 := rfl

theorem countTimestamps_cons (o : Out) (l : List Out) :
    countTimestamps (o :: l) = countTimestamps l + (if isTsO o then 1 else 0) :=
  List.countP_cons _ _ _

theorem countTimestamps_ite_clear (c : Bool) :
    countTimestamps (if c then [Out.clear] else []) = 0 := by
  cases c <;> rfl

theorem countTimestamps_ite_ts (c : Bool) :
    countTimestamps (if c then [Out.timestamp] else []) = if c then 1 else 0 := by
  cases c <;> rfl

theorem countTimestamps_ite_bd (c : Bool) (opt : CmdOptions) :
    countTimestamps (if c then boundaryOuts opt else []) =
      if c then (if opt.opt_t || opt.opt_n || opt.opt_s then 1 else 0) else 0 := by
  cases c
  · rfl
  · simp [countTimestamps_boundaryOuts]

theorem countTimestamps_ch (b : Nat) : countTimestamps [Out.ch b] = 0 := rfl

theorem countTimestamps_rendered (c d : Bool) (b : Nat) :
    countTimestamps (if c then
        [Out.color ESC_COLOR_GREEN, Out.esc d b, Out.color ESC_COLOR_RESET]
      else [Out.esc d b]) = 0 := by
  cases c <;> rfl

theorem hasLit_ite_clear (c : Bool) :
    hasLit (if c then [Out.clear] else []) = false := by
  cases c <;> rfl

theorem hasLit_ite_ts (c : Bool) :
    hasLit (if c then [Out.timestamp] else []) = false := by
  cases c <;> rfl

theorem hasLit_ite_bd (c : Bool) (opt : CmdOptions) :
    hasLit (if c then boundaryOuts opt else []) = false := by
  cases c
  · rfl
  · simp [hasLit_boundaryOuts]

theorem hasLit_ch (b : Nat) : hasLit [Out.ch b] = true := rfl

theorem hasLit_rendered (c d : Bool) (b : Nat) :
    hasLit (if c then
        [Out.color ESC_COLOR_GREEN, Out.esc d b, Out.color ESC_COLOR_RESET]
      else [Out.esc d b]) = false := by
  cases c <;> rfl

theorem hasEsc_ite_clear (c : Bool) :
    hasEsc (if c then [Out.clear] else []) = false := by
  cases c <;> rfl

theorem hasEsc_ite_ts (c : Bool) :
    hasEsc (if c then [Out.timestamp] else []) = false := by
  cases c <;> rfl

theorem hasEsc_ite_bd (c : Bool) (opt : CmdOptions) :
    hasEsc (if c then boundaryOuts opt else []) = false := by
  cases c
  · rfl
  · simp [hasEsc_boundaryOuts]

theorem hasEsc_ch (b : Nat) : hasEsc [Out.ch b] = false := rfl

theorem hasEsc_rendered (c d : Bool) (b : Nat) :
    hasEsc (if c then
        [Out.color ESC_COLOR_GREEN, Out.esc d b, Out.color ESC_COLOR_RESET]
      else [Out.esc d b]) = true := by
  cases c <;> rfl

set_option maxRecDepth 4096 in
theorem ascii_literal_cond : ∀ b, b < 256 →
    ((isprint b || iscntrl b) && !(b == 92)) = decide (b ≤ 127 ∧ b ≠ 92) := by
  decide

/-- C10: the ASCII formatter renders a byte as a literal character if and
only if it is printable or a control character in the C locale and is not
the backslash 0x5C — equivalently, for byte values 0..255, exactly when
`b ≤ 0x7F ∧ b ≠ 0x5C` (so every byte in 0x00..0x1F and 0x7F takes the
literal path and resets the escaped-byte counter to 0, never participating
in escape-run wrapping), while the escaped path is taken exactly for the
backslash and for bytes 0x80..0xFF. -/
theorem ascii_byte_classification (opt : CmdOptions) (st : AsciiState) (b : Nat)
    (hb : b < 256) :
    hasLit (print_byte_ascii b opt st).2 = decide (b ≤ 127 ∧ b ≠ 92)
      ∧ hasEsc (print_byte_ascii b opt st).2 = decide (b = 92 ∨ 128 ≤ b)
      ∧ (b ≤ 127 → b ≠ 92 → (print_byte_ascii b opt st).1.byte_count = 0) := by
  have hcond := ascii_literal_cond b hb
  by_cases hl : b ≤ 127 ∧ b ≠ 92
  · have hct : ((isprint b || iscntrl b) && !(b == 92)) = true := by
      rw [hcond]; exact decide_eq_true hl
    refine ⟨?_, ?_, fun _ _ => ?_⟩
    · simp only [print_byte_ascii, hct, if_true, hasLit_append, hasLit_ite_clear,
        hasLit_ite_ts, hasLit_ite_bd, hasLit_ch, Bool.false_or, decide_eq_true hl]
    · simp only [print_byte_ascii, hct, if_true, hasEsc_append, hasEsc_ite_clear,
        hasEsc_ite_ts, hasEsc_ite_bd, hasEsc_ch, Bool.or_self, Bool.or_false,
        decide_eq_false (show ¬(b = 92 ∨ 128 ≤ b) from by omega)]
    · simp only [print_byte_ascii, hct, if_true]
  · have hct : ((isprint b || iscntrl b) && !(b == 92)) = false := by
      rw [hcond]; exact decide_eq_false hl
    have hor : b = 92 ∨ 128 ≤ b := by omega
    refine ⟨?_, ?_, fun h1 h2 => absurd ⟨h1, h2⟩ hl⟩
    · simp only [print_byte_ascii, hct]
      rw [if_neg Bool.false_ne_true]
      simp only [hasLit_append, hasLit_ite_clear, hasLit_ite_ts, hasLit_ite_bd,
        hasLit_rendered, Bool.or_self, decide_eq_false hl]
    · simp only [print_byte_ascii, hct]
      rw [if_neg Bool.false_ne_true]
      simp only [hasEsc_append, hasEsc_ite_clear, hasEsc_ite_ts, hasEsc_ite_bd,
        hasEsc_rendered, Bool.false_or, Bool.or_true, decide_eq_true hor]

/-- C10 witness: byte 0x00 (a control character) takes the literal path
and leaves the escaped-byte counter at 0; byte 0x80 takes the escaped path. -/
theorem ascii_byte_classification_witness :
    hasLit (print_byte_ascii 0 cfgAscii8 ⟨0, 0⟩).2 = true
      ∧ (print_byte_ascii 0 cfgAscii8 ⟨0, 0⟩).1.byte_count = 0
      ∧ hasEsc (print_byte_ascii 128 cfgAscii8 ⟨0, 0⟩).2 = true := by
  have h0 := ascii_byte_classification cfgAscii8 ⟨0, 0⟩ 0 (by decide)
  have h128 := ascii_byte_classification cfgAscii8 ⟨0, 0⟩ 128 (by decide)
  refine ⟨?_, h0.2.2 (by decide) (by decide), ?_⟩
  · rw [h0.1]; decide
  · rw [h128.2.1]; decide

/-- C5 counterexample: feeding 0x41 then 0x01 with width 8 produces no line
boundary before 0x01 — 0x01 is a control character, so it takes the literal
path and no printable-to-escaped category switch happens. -/
theorem ascii_category_example_counterexample :
    hasBoundary (print_byte_ascii 1 cfgAscii8
        (print_byte_ascii 65 cfgAscii8 ⟨0, 0⟩).1).2 = false := by
  decide

/-- C5 (amended): feeding 0x41 ('A'), then 0x01, then 0x42 ('B') with
width 8 produces no line boundary at any of the three bytes — 0x01 is a
control character (`iscntrl`), so all three bytes take the literal path and
stay in the printable/control category, with no category switch; the
escaped-byte counter is 0 after each byte. -/
theorem ascii_category_example_amended :
    (asciiRun cfgAscii8 [65, 1, 66] ⟨0, 0⟩).1.map hasBoundary
        = [false, false, false]
      ∧ (asciiRun cfgAscii8 [65] ⟨0, 0⟩).2.byte_count = 0
      ∧ (asciiRun cfgAscii8 [65, 1] ⟨0, 0⟩).2.byte_count = 0
      ∧ (asciiRun cfgAscii8 [65, 1, 66] ⟨0, 0⟩).2.byte_count = 0 := by
  decide

/-- C6 counterexample: with width 3, four consecutive 0x00 bytes produce no
line boundary at all — 0x00 is a control character, so it takes the literal
path, the escaped-byte counter stays 0, and escape-run wrapping never
applies to it. -/
theorem ascii_escape_wrap_counterexample :
    (asciiRun cfgAscii3 [0, 0, 0, 0] ⟨0, 0⟩).1.map hasBoundary
      = [false, false, false, false] := by
  decide

/-- C6 (amended): escape-run wrapping holds for bytes that actually take
the escaped path: with width 3, feeding three consecutive 0x80 bytes
followed by a fourth 0x80 produces a line boundary before the first and
before the fourth byte (a new line starts every `width` bytes within a run
of escaped bytes); the 0x00 bytes of the original statement are control
characters and take the literal path instead. -/
theorem ascii_escape_wrap_amended :
    (asciiRun cfgAscii3 [128, 128, 128, 128] ⟨0, 0⟩).1.map hasBoundary
      = [true, false, false, true] := by
  decide

/-- C7 counterexample: with the timestamp flag set, after feeding 0x80 the
next byte 0x41 triggers a category-switch line boundary and a timestamp is
emitted at it, although the previously processed byte was 0x80 — neither
the newline 0x0A nor the first byte ever. -/
theorem ascii_timestamp_anchor_counterexample :
    (print_byte_ascii 128 cfgAsciiTs ⟨0, 0⟩).1.last_char = 128
      ∧ hasBoundary (print_byte_ascii 65 cfgAsciiTs
          (print_byte_ascii 128 cfgAsciiTs ⟨0, 0⟩).1).2 = true
      ∧ hasTimestamp (print_byte_ascii 65 cfgAsciiTs
          (print_byte_ascii 128 cfgAsciiTs ⟨0, 0⟩).1).2 = true := by
  decide

/-- C7 (amended): when a timestamp flag is set, the ASCII formatter emits a
timestamp (a) at the start of processing a byte exactly when the stored
previous byte is the newline 0x0A or 0 (true before the very first byte,
and again after a NUL byte), and (b) after every category-switch or
escape-run-start line boundary, unconditionally; the number of timestamp
emissions per byte is the sum of these two contributions. -/
theorem ascii_timestamp_emission (opt : CmdOptions) (st : AsciiState) (b : Nat)
    (hflag : (opt.opt_t || opt.opt_n || opt.opt_s) = true) :
    countTimestamps (print_byte_ascii b opt st).2 =
      (if st.last_char = 10 ∨ st.last_char = 0 then 1 else 0) +
      (if (isprint b || iscntrl b) && !(b == 92) then
        (if (!isprint st.last_char && !iscntrl st.last_char) || st.last_char == 92
          then 1 else 0)
      else (if st.byte_count == 0 then 1 else 0)) := by
  have hbeq : ((st.last_char == 10 || st.last_char == 0) : Bool)
      = decide (st.last_char = 10 ∨ st.last_char = 0) := by
    by_cases h10 : st.last_char = 10 <;> by_cases h0 : st.last_char = 0 <;>
      simp [h10, h0]
  by_cases hp : ((isprint b || iscntrl b) && !(b == 92)) = true
  · simp only [print_byte_ascii, hp, if_true, countTimestamps_append,
      countTimestamps_ite_clear, countTimestamps_ite_ts, countTimestamps_ite_bd,
      countTimestamps_ch, hflag, Bool.true_and, hbeq, if_true,
      Nat.zero_add, Nat.add_zero]
    by_cases hlc : st.last_char = 10 ∨ st.last_char = 0 <;>
      by_cases hsw : ((!isprint st.last_char && !iscntrl st.last_char)
        || st.last_char == 92) = true <;>
      simp [hlc, hsw]
  · have hp' : ((isprint b || iscntrl b) && !(b == 92)) = false :=
      Bool.not_eq_true _ ▸ Bool.eq_false_iff.mpr hp
    simp only [print_byte_ascii, hp', if_false, countTimestamps_append,
      countTimestamps_ite_clear, countTimestamps_ite_ts, countTimestamps_ite_bd,
      countTimestamps_rendered, hflag, Bool.true_and, hbeq, if_true,
      Nat.zero_add, Nat.add_zero]
    by_cases hlc : st.last_char = 10 ∨ st.last_char = 0 <;>
      by_cases hbc : (st.byte_count == 0) = true <;>
      simp [hlc, hbc, apply_ite countTimestamps, countTimestamps_cons,
        countTimestamps_nil, countTimestamps_append, countTimestamps_boundaryOuts,
        countTimestamps_rendered, hflag, isTsO, ite_self]

/-- C7 (amended) witness: after byte 0x80 the state stores previous byte
0x80; feeding 0x41 then emits exactly one timestamp (the one following the
category-switch boundary). -/
theorem ascii_timestamp_emission_witness :
    countTimestamps (print_byte_ascii 65 cfgAsciiTs ⟨128, 1⟩).2 = 1 := by
  have h := ascii_timestamp_emission cfgAsciiTs ⟨128, 1⟩ 65 (by decide)
  rw [h]; decide

/-- C8: on the very first invocation of `print_timestamp` (prior mark still
the zero sentinel), the prior mark is seeded to the current time before the
delta is computed, so every delta rendered on that call is exactly zero
(`+000000000000` nanoseconds and a zero-seconds value); and on every
invocation, first call or not, the current time is stored as the new prior
mark. -/
theorem print_timestamp_first_mark (opt : CmdOptions) (now appTs : Timespec) :
    (print_timestamp now opt appTs).1 = now
      ∧ (appTs.sec = 0 → appTs.nsec = 0 →
          (print_timestamp now opt appTs).2 =
            (if opt.opt_t then [TsOut.abs (now.sec * 1000000000 + now.nsec)] else [])
              ++ (if opt.opt_n then [TsOut.deltaNs 0] else [])
              ++ (if opt.opt_s then [TsOut.deltaSec ⟨0, 0⟩] else [])) := by
  refine ⟨rfl, fun hs hn => ?_⟩
  have hsub : timespec_sub now now = ⟨0, 0⟩ := by
    simp [timespec_sub]
  simp only [print_timestamp, hs, hn]
  cases hnf : opt.opt_n <;> cases hsf : opt.opt_s <;>
    simp [hsub]

/-- C8 witness: with all three timestamp flags set and current time
`(sec 5, nsec 7)`, the first call reports the absolute time, a zero
nanosecond delta and a zero seconds delta, and stores `(5, 7)` as the new
mark. -/
theorem print_timestamp_first_mark_witness :
    (print_timestamp ⟨5, 7⟩ cfgAllTs ⟨0, 0⟩).1 = ⟨5, 7⟩
      ∧ (print_timestamp ⟨5, 7⟩ cfgAllTs ⟨0, 0⟩).2 =
          [TsOut.abs 5000000007, TsOut.deltaNs 0, TsOut.deltaSec ⟨0, 0⟩] := by
  have h := print_timestamp_first_mark cfgAllTs ⟨5, 7⟩ ⟨0, 0⟩
  refine ⟨h.1, ?_⟩
  rw [h.2 rfl rfl]
  decide

/-- C4: device-session failure handling is two-tier.  If `open` succeeded
but the non-blocking exclusive lock could not be obtained, `config_tty`
returns `EXIT_UNLOCKED` without ever calling `tcsetattr` (no device
attribute mutated) and `main` runs only the close step (no unlock
attempted).  If the lock was obtained but reading or writing the attributes
fails, `config_tty` returns `EXIT_LOCKED` and `main` releases the lock
first and then closes the handle. -/
theorem device_session_failure_paths (env : TtyEnv) :
    (env.open_ok = true → env.flock_ok = false →
        config_tty env = ⟨.exit_unlocked, false⟩
          ∧ main_cleanup_for (config_tty env).result = [.closeHandle])
      ∧ (env.open_ok = true → env.flock_ok = true →
          (env.tcgetattr_ok = false ∨ env.tcsetattr_ok = false) →
          (config_tty env).result = .exit_locked
            ∧ main_cleanup_for (config_tty env).result
                = [.unlock, .closeHandle]) := by
  obtain ⟨o, f, g, s⟩ := env
  cases o <;> cases f <;> cases g <;> cases s <;> decide

/-- C4 witness: a lock failure (after a successful open) takes the unlocked
exit path with no attribute write, and a `tcgetattr` failure after a
successful lock takes the locked exit path. -/
theorem device_session_failure_paths_witness :
    (config_tty ⟨true, false, true, true⟩ = ⟨.exit_unlocked, false⟩
        ∧ main_cleanup_for (config_tty ⟨true, false, true, true⟩).result
            = [.closeHandle])
      ∧ ((config_tty ⟨true, true, false, true⟩).result = .exit_locked
        ∧ main_cleanup_for (config_tty ⟨true, true, false, true⟩).result
            = [.unlock, .closeHandle]) :=
  ⟨(device_session_failure_paths ⟨true, false, true, true⟩).1 rfl rfl,
    (device_session_failure_paths ⟨true, true, false, true⟩).2 rfl rfl (Or.inl rfl)⟩

/-- C9: by C operator precedence the default-display check's condition is
true whenever the MIDI flag is unset (its last disjunct is `opt_m == 0`),
so the color flag is forced on for every non-MIDI configuration — even
when another display flag, such as decimal output, was explicitly
requested alone. -/
theorem default_color_forced_without_midi (opt : CmdOptions)
    (hm : opt.opt_m = false) :
    default_display_condition opt = true
      ∧ (config_opt_default_color opt).opt_c = true := by
  have hc : default_display_condition opt = true := by
    simp [default_display_condition, hm]
  refine ⟨hc, ?_⟩
  simp [config_opt_default_color, hc]

/-- C9 witness: with only the decimal flag set (and MIDI off), the default
check still fires and forces color on. -/
theorem default_color_forced_without_midi_witness :
    default_display_condition cfgDecOnly = true
      ∧ (config_opt_default_color cfgDecOnly).opt_c = true :=
  default_color_forced_without_midi cfgDecOnly rfl

end Ttydump
